import Mathlib

/-!
Verification of the optimistic-lock repository against its specification.

The repository implements optimistic concurrency control for a versioned
balance record.  Two variants of the update operation exist:

* the single-attempt variant (service/balance.go, function UpdateBalance):
  read the record, add the delta, and issue a conditional update guarded by
  the version observed at read time; zero rows affected is reported as a
  conflict error, any other row count as success;

* the retrying variant (second service file, function UpdateBalance):
  the same read-modify-conditional-write cycle inside a loop of at most
  maxAttempts = 5 attempts, with exponential backoff (base 10 ms) plus
  uniform jitter between conflicted attempts.

The development embeds both variants at two levels:

* an outcome level, where the database is an oracle assigning to each
  attempt the result of its read and of its conditional write, which
  captures the control flow (early returns, retry counting, sleeping);

* a store level, where the store is a list of balance rows and the
  conditional update is the atomic guarded row update of the Record Store
  collaborator contract (spec section 6); interference from concurrent
  writers is a function transforming the store between the operation's own
  store calls.

Machine integers: Amount is a Go int64 and Version a Go int (64-bit); the
additions in the source are unchecked, so the embedding performs them
through a two's-complement wrap at 64 bits, made explicit by wrap64.
-/

/-- Two's-complement wrap of an integer into the signed 64-bit range,
exactly the effect of Go's unchecked int64 addition on the mathematical
sum. -/
def wrap64 (x : Int) : Int := (x + 2 ^ 63) % 2 ^ 64 - 2 ^ 63

/-- The Go error values produced or propagated by the two UpdateBalance
variants.  Errors coming from the database driver are abstracted by
dbErr with a code; the remaining constructors stand for the literal
errors the source constructs:

* recordNotFound: gorm.ErrRecordNotFound returned by the read;
* conflictSingle: the string "conflict: balance updated by another
  transaction" of the single-attempt variant;
* conflictRetryExhausted: the string "conflict: balance updated by another
  transaction, retry exhausted" of the retrying variant;
* successfulRetry: the string "successful retry" the retrying variant
  returns on success at an attempt after the first;
* updateFailedAfterRetries: the string "update failed after retries"
  returned when the loop ends with no recorded error. -/
inductive GoErr where
  | recordNotFound
  | dbErr (code : Nat)
  | conflictSingle
  | conflictRetryExhausted
  | successfulRetry
  | updateFailedAfterRetries
deriving DecidableEq, Repr

/-- The versioned record of models/balance.go: ID uint (primary key),
Amount int64, Version int.  Only equality of the ID is used by the
protocol, so it is a Nat; Amount and Version are integers kept in the
64-bit range by wrap64 at every arithmetic step the source performs. -/
structure Balance where
  id : Nat
  amount : Int
  version : Int
deriving DecidableEq, Repr

/-- A store state: the rows of the balances table. -/
abbrev Store := List Balance

/-- Outcome of the read db.First(&balance, id) of one attempt: either an
error (gorm.ErrRecordNotFound or a driver error) or the record found. -/
inductive ReadOutcome where
  | err (e : GoErr)
  | ok (b : Balance)
deriving DecidableEq, Repr

/-- Outcome of the conditional write of one attempt: result.Error when it
is non-nil, otherwise the value of result.RowsAffected. -/
inductive WriteOutcome where
  | err (e : GoErr)
  | rows (n : Int)
deriving DecidableEq, Repr

/-- Outcome-level oracle for one attempt of the retrying variant: the
read fails, or the read succeeds and the write errors, or the read
succeeds and the write reports a row count. -/
inductive AttemptEvent where
  | readFail (e : GoErr)
  | writeErr (e : GoErr)
  | rows (n : Int)
deriving DecidableEq, Repr

/-- Retry bound of the retrying variant: const maxAttempts = 5. -/
def maxAttempts : Nat := 5

/-- Base backoff of the retrying variant in nanoseconds:
const baseBackoff = 10 * time.Millisecond. -/
def baseBackoffNs : Int := 10000000

/-- Pre-jitter backoff before the sleep that follows conflicted attempt k:
backoff := baseBackoff * (1 << (attempt - 1)), embedded with the same
shift the source uses. -/
def backoffNs (k : Nat) : Int := baseBackoffNs * ((1 <<< (k - 1) : Nat) : Int)

/-- Jitter added to the backoff, as a function of the raw random draw
r = rnd.Int63n(int64(backoff)), which the caller guarantees to lie in
[0, backoff): jitter := time.Duration(rnd.Int63n(int64(backoff))) - backoff/2. -/
def jitterNs (k : Nat) (r : Int) : Int := r - backoffNs k / 2

/-- Duration slept after conflicted attempt k given the raw random draw r:
sleep := backoff + jitter, clamped at zero by if sleep < 0. -/
def sleepNs (k : Nat) (r : Int) : Int :=
  let s := backoffNs k + jitterNs k r
  if s < 0 then 0 else s

/-- Observable trace of one invocation of the retrying variant: the Go
error returned (none is a nil error, hence success), the number of loop
iterations entered, and the slept durations in order. -/
structure RetryTrace where
  result : Option GoErr
  attempts : Nat
  sleeps : List Int
deriving DecidableEq, Repr

/-- Outcome-level embedding of the retry loop of the retrying variant.
Arguments: the per-attempt oracle, the per-attempt raw random draw, the
remaining fuel (maxAttempts - attempt + 1), the current attempt number,
the accumulated lastErr, and the slept durations so far (reversed).
On fuel 0 the loop condition attempt <= maxAttempts has failed and the
function returns lastErr if set, else the "update failed after retries"
error.  Each iteration follows the source line by line: a read error
returns immediately; a write error or a zero row count is recorded in
lastErr and, when attempt < maxAttempts, is followed by a backoff sleep;
a non-zero row count returns success, as the "successful retry" error
when attempt > 1 and as nil otherwise. -/
def retryGo (ev : Nat → AttemptEvent) (rand : Nat → Int) :
    Nat → Nat → Option GoErr → List Int → RetryTrace
  | 0, k, lastErr, sleeps =>
      { result := some (lastErr.getD .updateFailedAfterRetries)
        attempts := k - 1
        sleeps := sleeps.reverse }
  | fuel + 1, k, lastErr, sleeps =>
      match ev k with
      | .readFail e => { result := some e, attempts := k, sleeps := sleeps.reverse }
      | .writeErr e =>
          if k < maxAttempts then
            retryGo ev rand fuel (k + 1) (some e) (sleepNs k (rand k) :: sleeps)
          else
            retryGo ev rand fuel (k + 1) (some e) sleeps
      | .rows n =>
          if n = 0 then
            if k < maxAttempts then
              retryGo ev rand fuel (k + 1) (some .conflictRetryExhausted)
                (sleepNs k (rand k) :: sleeps)
            else
              retryGo ev rand fuel (k + 1) (some .conflictRetryExhausted) sleeps
          else
            { result := if 1 < k then some .successfulRetry else none
              attempts := k
              sleeps := sleeps.reverse }

/-- Outcome-level embedding of the retrying UpdateBalance: runs the loop
from attempt 1 with no recorded error. -/
def updateBalanceRetry (ev : Nat → AttemptEvent) (rand : Nat → Int) : RetryTrace :=
  retryGo ev rand maxAttempts 1 none []

/-- Outcome-level embedding of the single-attempt UpdateBalance of
service/balance.go: a read error is returned as is; then a write error is
returned as is; a zero row count yields the conflict error and any other
row count yields nil (success). -/
def updateBalanceSingle (read : ReadOutcome) (write : WriteOutcome) : Option GoErr :=
  match read with
  | .err e => some e
  | .ok _ =>
      match write with
      | .err e => some e
      | .rows n => if n = 0 then some .conflictSingle else none

/-- Read of the balances table by primary key, the db.First(&balance, id)
call: the first row whose ID equals the requested one, or none, which
gorm reports as ErrRecordNotFound. -/
def findBalance (s : Store) (i : Nat) : Option Balance :=
  s.find? (fun b => b.id == i)

/-- Number of rows matched by the guard of the conditional update, the
RowsAffected count the store reports. -/
def condUpdateMatches (s : Store) (i : Nat) (ver : Int) : Nat :=
  (s.filter (fun b => b.id == i && b.version == ver)).length

/-- The conditional update of the Record Store collaborator contract
(spec section 6), issued by both variants as
UPDATE balances SET amount = newAmount, version = newVersion
WHERE id = i AND version = ver: atomically rewrites every row matching
the guard and reports how many rows it affected.  The store itself
(gorm over PostgreSQL) is external to the repository; this definition is
its contract from the spec. -/
def conditionalUpdate (s : Store) (i : Nat) (ver newAmount newVersion : Int) :
    Store × Nat :=
  (s.map (fun b =>
      if b.id == i && b.version == ver
      then { b with amount := newAmount, version := newVersion } else b),
   condUpdateMatches s i ver)

/-- Store-level embedding of one read-modify-conditional-write cycle, the
body shared by both UpdateBalance variants.  Because other writers may
commit between this invocation's read and its write, the store is given
twice: sRead is the store the read executes against and sWrite the store
the conditional write executes against.  The cycle reads the record,
computes the new amount and version with Go's unchecked 64-bit additions,
and issues the conditional update guarded by the version observed at read
time; zero affected rows is the conflict error of the single-attempt
variant, any other count is success. -/
def updateBalanceRMW (sRead sWrite : Store) (i : Nat) (delta : Int) :
    Option GoErr × Store :=
  match findBalance sRead i with
  | none => (some .recordNotFound, sWrite)
  | some b =>
      let p := conditionalUpdate sWrite i b.version
        (wrap64 (b.amount + delta)) (wrap64 (b.version + 1))
      if p.2 = 0 then (some .conflictSingle, p.1) else (none, p.1)

/-- Store-level embedding of the retry loop of the retrying variant.
Interference by concurrent writers is a function g from step numbers to
store transformers: attempt k reads against g (2k-1) applied to the store
it inherited and writes against g (2k) applied to the store it read from,
so arbitrary foreign commits may land between any two of the invocation's
own store calls.  A read miss returns ErrRecordNotFound immediately; a
conflicted write records the exhaustion error and retries (the fuel
enforces the attempt <= maxAttempts loop condition); a write that affects
rows returns success, as the "successful retry" error when the attempt is
not the first. -/
def retryStoreGo (g : Nat → Store → Store) (i : Nat) (delta : Int) :
    Nat → Nat → Store → Option GoErr → Option GoErr × Store
  | 0, _, s, lastErr => (some (lastErr.getD .updateFailedAfterRetries), s)
  | fuel + 1, k, s, lastErr =>
      let sR := g (2 * k - 1) s
      match findBalance sR i with
      | none => (some .recordNotFound, sR)
      | some b =>
          let sW := g (2 * k) sR
          let p := conditionalUpdate sW i b.version
            (wrap64 (b.amount + delta)) (wrap64 (b.version + 1))
          if p.2 = 0 then
            retryStoreGo g i delta fuel (k + 1) p.1 (some .conflictRetryExhausted)
          else
            ((if 1 < k then some .successfulRetry else none), p.1)

/-- Store-level embedding of the retrying UpdateBalance: runs the loop
from attempt 1 on the given initial store with no recorded error. -/
def updateBalanceRetryStore (g : Nat → Store → Store) (i : Nat) (delta : Int)
    (s : Store) : Option GoErr × Store :=
  retryStoreGo g i delta maxAttempts 1 s none

/-- The evolution of the store under the interference alone: what the
store becomes when the invocation itself commits nothing across fuel
remaining attempts starting at attempt k. -/
def interfOnlyGo (g : Nat → Store → Store) : Nat → Nat → Store → Store
  | 0, _, s => s
  | fuel + 1, k, s => interfOnlyGo g fuel (k + 1) (g (2 * k) (g (2 * k - 1) s))

/-- The store after the interference of all maxAttempts attempts, with no
contribution from the invocation. -/
def interfOnly (g : Nat → Store → Store) (s : Store) : Store :=
  interfOnlyGo g maxAttempts 1 s

/-- C1.  The claim: on any attempt whose conditional write affects one
row the retrying variant returns success immediately, and the success
result is the same regardless of how many attempts were needed.  The
code violates the second half: a first-attempt success returns a nil
error while a success on attempt 2 returns the non-nil "successful
retry" error, so the caller can distinguish the two.  This theorem
evaluates the code at the failing input: attempt 1 conflicts, attempt 2
affects one row; the loop does stop at attempt 2, but with the
"successful retry" error instead of the nil of a first-attempt success. -/
theorem c1_successfulRetry_leaks :
    updateBalanceRetry (fun k => if k = 1 then .rows 0 else .rows 1) (fun _ => 0) =
      { result := some .successfulRetry, attempts := 2, sleeps := [5000000] }
    ∧ updateBalanceRetry (fun _ => .rows 1) (fun _ => 0) =
      { result := none, attempts := 1, sleeps := [] } := by
  exact ⟨by decide, by decide⟩

/-- C2, counterexample.  The claim says a store error from the
conditional write makes the operation fail immediately with that error,
with no further attempt and no backoff sleep.  With a write store error
on attempt 1 and a one-row write on attempt 2, the code instead sleeps
5 ms, runs a second attempt, and returns the "successful retry" error:
two attempts, one sleep, and a result that is not the store error. -/
theorem c2_writeErr_is_retried :
    updateBalanceRetry (fun k => if k = 1 then .writeErr (.dbErr 7) else .rows 1)
        (fun _ => 0) =
      { result := some .successfulRetry, attempts := 2, sleeps := [5000000] } := by
  decide

/-- C2, amended.  A failed read (NotFound or store error) does abort the
retrying variant immediately, with that error, no retry and no sleep.  A
store error from the conditional write, however, is only recorded: the
attempt is retried with backoff like a conflict, and when every attempt's
write errors the loop runs all five attempts, sleeps four times, and
returns the last recorded store error. -/
theorem c2_read_fails_fast_write_retries (e : GoErr) (rand : Nat → Int) :
    updateBalanceRetry (fun _ => .readFail e) rand =
      { result := some e, attempts := 1, sleeps := [] }
    ∧ updateBalanceRetry (fun _ => .writeErr e) rand =
      { result := some e, attempts := 5
        sleeps := [sleepNs 1 (rand 1), sleepNs 2 (rand 2),
                   sleepNs 3 (rand 3), sleepNs 4 (rand 4)] } := by
  exact ⟨rfl, rfl⟩

/-- C6.  When the conditional write reports zero affected rows on every
attempt, the retrying variant performs exactly maxAttempts = 5 attempts,
sleeps after the first four only, and fails with the retry-exhaustion
error, for every sequence of jitter draws. -/
theorem c6_exhaustion_after_five_attempts (rand : Nat → Int) :
    updateBalanceRetry (fun _ => .rows 0) rand =
      { result := some .conflictRetryExhausted, attempts := 5
        sleeps := [sleepNs 1 (rand 1), sleepNs 2 (rand 2),
                   sleepNs 3 (rand 3), sleepNs 4 (rand 4)] } := by
  rfl

/-- C5.  For every conflicted attempt k with 1 <= k < maxAttempts and
every raw draw r of rnd.Int63n(int64(backoff)) (so 0 <= r < backoff):
the pre-jitter backoff is baseBackoff times 2 to the (k-1); the jitter
offset lies in [-backoff/2, +backoff/2] and is an injective image of the
uniform draw (so it is itself uniformly distributed over its range); the
pre-clamp sum backoff + jitter lies in [backoff/2, 1.5 backoff]; and the
slept duration equals that sum (the clamp at zero never bites because
the sum is already non-negative) and lies in [0, 1.5 backoff].  The
bound x <= 1.5 b is stated as 2 x <= 3 b to stay in integers. -/
theorem c5_backoff_jitter_bounds (k : Nat) (r : Int)
    (hk1 : 1 ≤ k) (hk2 : k < maxAttempts) (hr0 : 0 ≤ r) (hrb : r < backoffNs k) :
    backoffNs k = baseBackoffNs * 2 ^ (k - 1)
    ∧ -(backoffNs k / 2) ≤ jitterNs k r
    ∧ jitterNs k r ≤ backoffNs k / 2
    ∧ (∀ r', jitterNs k r = jitterNs k r' → r = r')
    ∧ backoffNs k / 2 ≤ backoffNs k + jitterNs k r
    ∧ 2 * (backoffNs k + jitterNs k r) ≤ 3 * backoffNs k
    ∧ sleepNs k r = backoffNs k + jitterNs k r
    ∧ 0 ≤ sleepNs k r
    ∧ 2 * sleepNs k r ≤ 3 * backoffNs k := by
  have hb : backoffNs k = baseBackoffNs * 2 ^ (k - 1) := by
    simp [backoffNs, Nat.shiftLeft_eq]
  refine ⟨hb, ?_, ?_, ?_, ?_, ?_, ?_, ?_, ?_⟩
  · unfold jitterNs; omega
  · unfold jitterNs; omega
  · intro r' h; unfold jitterNs at h; omega
  · unfold jitterNs; omega
  · unfold jitterNs; omega
  · show (if backoffNs k + jitterNs k r < 0 then 0 else backoffNs k + jitterNs k r) = _
    unfold jitterNs; split <;> omega
  · show 0 ≤ if backoffNs k + jitterNs k r < 0 then 0 else backoffNs k + jitterNs k r
    unfold jitterNs; split <;> omega
  · show 2 * (if backoffNs k + jitterNs k r < 0 then 0 else backoffNs k + jitterNs k r) ≤ _
    unfold jitterNs; split <;> omega

/-- C5, witness: the bounds instantiated at the first conflicted attempt
with the smallest possible draw, where the sleep is half the backoff. -/
theorem c5_backoff_jitter_bounds_witness :
    sleepNs 1 0 = backoffNs 1 + jitterNs 1 0 ∧ 0 ≤ sleepNs 1 0 := by
  have h := c5_backoff_jitter_bounds 1 0 (by decide) (by decide) (by decide) (by decide)
  exact ⟨h.2.2.2.2.2.2.1, h.2.2.2.2.2.2.2.1⟩

/-- C3, counterexample.  The claim says a row count other than 0 or 1
must be reported as StoreError; the single-attempt variant instead
checks only for zero rows, so a conditional write reporting 2 affected
rows returns a nil error, i.e. success, not a StoreError. -/
theorem c3_two_rows_reported_as_success :
    updateBalanceSingle (.ok ⟨1, 1000, 1⟩) (.rows 2) = none := rfl

/-- C3, amended.  The single-attempt variant distinguishes only zero
from non-zero affected rows: any non-zero row count, including counts
greater than one, is returned as success, and no StoreError is raised
for an invariant-violating multi-row count. -/
theorem c3_any_nonzero_rows_is_success (b : Balance) (n : Int) (h : n ≠ 0) :
    updateBalanceSingle (.ok b) (.rows n) = none := by
  simp [updateBalanceSingle, h]

/-- C3, witness for the amended claim at the two-row count. -/
theorem c3_any_nonzero_rows_is_success_witness :
    (2 : Int) ≠ 0 ∧ updateBalanceSingle (.ok ⟨2, 500, 3⟩) (.rows 2) = none :=
  ⟨by decide, c3_any_nonzero_rows_is_success ⟨2, 500, 3⟩ 2 (by decide)⟩

/-- C4.  For the single-attempt variant with a successful read and an
error-free conditional write: the operation fails with the conflict
error exactly when zero rows were affected, and returns success (nil)
when one row is affected; and at store level, when the read finds record
c, the result is the conflict error exactly when the guarded update
matched no row of the store the write ran against.  The variant runs the
cycle once (updateBalanceSingle and updateBalanceRMW contain no loop), so
a conflict is surfaced, never retried. -/
theorem c4_conflict_iff_zero_rows (b : Balance) (n : Int) (sR sW : Store)
    (i : Nat) (delta : Int) (c : Balance) (hc : findBalance sR i = some c) :
    (updateBalanceSingle (.ok b) (.rows n) = some .conflictSingle ↔ n = 0)
    ∧ updateBalanceSingle (.ok b) (.rows 1) = none
    ∧ ((updateBalanceRMW sR sW i delta).1 = some .conflictSingle ↔
        condUpdateMatches sW i c.version = 0) := by
  refine ⟨?_, rfl, ?_⟩
  · by_cases h : n = 0 <;> simp [updateBalanceSingle, h]
  · unfold updateBalanceRMW
    rw [hc]
    by_cases h : condUpdateMatches sW i c.version = 0 <;>
      simp [conditionalUpdate, h]

/-- C4, witness: a zero-row write at the outcome level is the conflict
error, a one-row write succeeds, and at store level an invocation whose
write runs against a store whose version moved on reports conflict. -/
theorem c4_conflict_iff_zero_rows_witness :
    (updateBalanceSingle (.ok ⟨1, 1000, 1⟩) (.rows 0) = some .conflictSingle ↔ (0 : Int) = 0)
    ∧ updateBalanceSingle (.ok ⟨1, 1000, 1⟩) (.rows 1) = none
    ∧ ((updateBalanceRMW [⟨1, 1000, 1⟩] [⟨1, 1005, 2⟩] 1 10).1 = some .conflictSingle ↔
        condUpdateMatches [⟨1, 1005, 2⟩] 1 1 = 0) :=
  c4_conflict_iff_zero_rows ⟨1, 1000, 1⟩ 0 [⟨1, 1000, 1⟩] [⟨1, 1005, 2⟩] 1 10
    ⟨1, 1000, 1⟩ (by decide)

/-- Wrap at 64 bits is the identity on sums that stay inside the signed
64-bit range, which is when Go's unchecked addition computes the
mathematical sum. -/
theorem wrap64_eq_self (x : Int) (h1 : -(2 ^ 63) ≤ x) (h2 : x < 2 ^ 63) :
    wrap64 x = x := by
  unfold wrap64
  omega

/-- A conditional update whose guard matches no row leaves the store
exactly as it was: a losing write performs zero mutation. -/
theorem conditionalUpdate_noMatch (s : Store) (i : Nat) (ver a v : Int)
    (h : condUpdateMatches s i ver = 0) :
    (conditionalUpdate s i ver a v).1 = s := by
  unfold conditionalUpdate
  unfold condUpdateMatches at h
  rw [List.length_eq_zero, List.filter_eq_nil_iff] at h
  induction s with
  | nil => rfl
  | cons x t ih =>
      have hx : ¬(x.id == i && x.version == ver) = true :=
        h x (List.mem_cons_self x t)
      simp only [List.map_cons, hx, if_false, Bool.false_eq_true, List.cons.injEq]
      exact ⟨trivial, ih fun y hy => h y (List.mem_cons_of_mem x hy)⟩

/-- A conditional update whose guard matches at least one row has, among
the rows of the store it runs against, a row with the guarded id and
version. -/
theorem condUpdateMatches_pos_exists (s : Store) (i : Nat) (ver : Int)
    (h : condUpdateMatches s i ver ≠ 0) :
    ∃ (j : Nat) (r : Balance), s[j]? = some r ∧ r.id = i ∧ r.version = ver := by
  unfold condUpdateMatches at h
  rcases List.exists_mem_of_length_pos (Nat.pos_of_ne_zero h) with ⟨x, hx⟩
  rw [List.mem_filter] at hx
  rcases hx with ⟨hmem, hpred⟩
  rcases List.mem_iff_getElem?.mp hmem with ⟨j, hj⟩
  refine ⟨j, x, hj, ?_, ?_⟩ <;> simp only [Bool.and_eq_true, beq_iff_eq] at hpred
  · exact hpred.1
  · exact hpred.2

/-- In a store whose row ids are pairwise distinct (the id is the primary
key), two positions holding rows with the same id are the same position. -/
theorem nodup_ids_index_unique (l : Store) (hp : (l.map Balance.id).Nodup)
    (j m : Nat) (r r' : Balance) (hj : l[j]? = some r) (hm : l[m]? = some r')
    (hid : r.id = r'.id) : j = m := by
  have hjm : (l.map Balance.id)[j]? = some r.id := by
    rw [List.getElem?_map, hj]; rfl
  have hmm : (l.map Balance.id)[m]? = some r'.id := by
    rw [List.getElem?_map, hm]; rfl
  have hp' := List.pairwise_iff_getElem.mp hp
  have hjl : j < (l.map Balance.id).length := by
    by_contra hc
    rw [List.getElem?_eq_none (Nat.le_of_not_lt hc)] at hjm
    exact Option.noConfusion hjm
  have hml : m < (l.map Balance.id).length := by
    by_contra hc
    rw [List.getElem?_eq_none (Nat.le_of_not_lt hc)] at hmm
    exact Option.noConfusion hmm
  have hj' : (l.map Balance.id)[j] = r.id := by
    rw [List.getElem?_eq_getElem hjl] at hjm; exact Option.some.inj hjm
  have hm' : (l.map Balance.id)[m] = r'.id := by
    rw [List.getElem?_eq_getElem hml] at hmm; exact Option.some.inj hmm
  rcases Nat.lt_trichotomy j m with h | h | h
  · exact absurd (hj' ▸ hm' ▸ hid) (hp' j m hjl hml h)
  · exact h
  · exact absurd (hj' ▸ hm' ▸ hid.symm) (hp' m j hml hjl h)

/-- A successful run of the store-level retry loop owes its final store
to one successful read-modify-conditional-write cycle: there are a read
store and a write store (those of the winning attempt) on which the
shared cycle succeeds and produces exactly the loop's final store. -/
theorem retryStoreGo_success_cycle (g : Nat → Store → Store) (i : Nat) (delta : Int) :
    ∀ (fuel k : Nat) (s : Store) (le : Option GoErr) (res : Option GoErr) (t : Store),
      (le = none ∨ le = some GoErr.conflictRetryExhausted) →
      retryStoreGo g i delta fuel k s le = (res, t) →
      (res = none ∨ res = some GoErr.successfulRetry) →
      ∃ sR sW, updateBalanceRMW sR sW i delta = (none, t) := by
  intro fuel
  induction fuel with
  | zero =>
      intro k s le res t hle h hres
      simp only [retryStoreGo, Prod.mk.injEq] at h
      rcases hle with h1 | h1 <;> subst h1 <;>
        simp only [Option.getD] at h <;>
        rcases h with ⟨h2, _⟩ <;> subst h2 <;>
        rcases hres with h3 | h3 <;> exact absurd h3 (by decide)
  | succ fuel ih =>
      intro k s le res t hle h hres
      simp only [retryStoreGo] at h
      cases hf : findBalance (g (2 * k - 1) s) i with
      | none =>
          rw [hf] at h
          simp only [Prod.mk.injEq] at h
          rcases h with ⟨h2, _⟩
          subst h2
          rcases hres with h3 | h3 <;> exact absurd h3 (by decide)
      | some b =>
          rw [hf] at h
          dsimp only at h
          by_cases hz : (conditionalUpdate (g (2 * k) (g (2 * k - 1) s)) i b.version
              (wrap64 (b.amount + delta)) (wrap64 (b.version + 1))).2 = 0
          · rw [if_pos hz] at h
            exact ih (k + 1) _ _ res t (Or.inr rfl) h hres
          · rw [if_neg hz] at h
            simp only [Prod.mk.injEq] at h
            rcases h with ⟨_, h2⟩
            refine ⟨g (2 * k - 1) s, g (2 * k) (g (2 * k - 1) s), ?_⟩
            unfold updateBalanceRMW
            rw [hf]
            dsimp only
            rw [if_neg hz, h2]

/-- C7.  First conjunct: a successful read-modify-conditional-write
cycle — the body shared by both UpdateBalance variants — against a write
store whose ids are unique (id is the primary key) changes exactly one
row, the one with the requested id: it ends with amount equal to the
amount the invocation read plus delta and version equal to the version
the invocation read plus one (the range hypotheses say the unchecked
64-bit additions do not wrap), and every other position of the store is
unchanged.  Second conjunct: a success of the retrying variant is
produced by exactly such a cycle, the one of the winning attempt, so the
property covers both variants. -/
theorem c7_success_updates_exactly_one_row (sRead sWrite : Store) (i : Nat)
    (delta : Int) (b : Balance) (t : Store)
    (hnodup : (sWrite.map Balance.id).Nodup)
    (hb : findBalance sRead i = some b)
    (ha1 : -(2 ^ 63) ≤ b.amount + delta) (ha2 : b.amount + delta < 2 ^ 63)
    (hv1 : -(2 ^ 63) ≤ b.version + 1) (hv2 : b.version + 1 < 2 ^ 63)
    (hs : updateBalanceRMW sRead sWrite i delta = (none, t)) :
    (∃ (j : Nat) (r : Balance), sWrite[j]? = some r ∧ r.id = i ∧ r.version = b.version
      ∧ t[j]? = some ⟨i, b.amount + delta, b.version + 1⟩
      ∧ ∀ m : Nat, m ≠ j → t[m]? = sWrite[m]?)
    ∧ ∀ (g : Nat → Store → Store) (s u : Store) (res : Option GoErr),
        updateBalanceRetryStore g i delta s = (res, u) →
        (res = none ∨ res = some GoErr.successfulRetry) →
        ∃ sR sW, updateBalanceRMW sR sW i delta = (none, u) := by
  constructor
  · unfold updateBalanceRMW at hs
    rw [hb] at hs
    dsimp only at hs
    by_cases hz : (conditionalUpdate sWrite i b.version (wrap64 (b.amount + delta))
        (wrap64 (b.version + 1))).2 = 0
    · rw [if_pos hz] at hs
      have : (some GoErr.conflictSingle : Option GoErr) = none := congrArg Prod.fst hs
      exact absurd this (by decide)
    · rw [if_neg hz] at hs
      have ht : (conditionalUpdate sWrite i b.version (wrap64 (b.amount + delta))
          (wrap64 (b.version + 1))).1 = t := congrArg Prod.snd hs
      have hz' : condUpdateMatches sWrite i b.version ≠ 0 := hz
      obtain ⟨j, r, hj, hid, hver⟩ := condUpdateMatches_pos_exists sWrite i b.version hz'
      have hcond : (r.id == i && r.version == b.version) = true := by
        simp [hid, hver]
      refine ⟨j, r, hj, hid, hver, ?_, ?_⟩
      · rw [← ht]
        unfold conditionalUpdate
        rw [List.getElem?_map, hj]
        simp only [Option.map_some', hcond, if_true]
        rw [wrap64_eq_self _ ha1 ha2, wrap64_eq_self _ hv1 hv2]
        simp [hid]
      · intro m hm
        rw [← ht]
        unfold conditionalUpdate
        rw [List.getElem?_map]
        cases hsm : sWrite[m]? with
        | none => rfl
        | some rm =>
            by_cases hc : (rm.id == i && rm.version == b.version) = true
            · have hrm : rm.id = i ∧ rm.version = b.version := by simpa using hc
              exact absurd
                (nodup_ids_index_unique sWrite hnodup m j rm r hsm hj (by rw [hrm.1, hid]))
                hm
            · simp only [Option.map_some', if_neg hc]
  · intro g s u res h hres
    exact retryStoreGo_success_cycle g i delta maxAttempts 1 s none res u (Or.inl rfl) h hres

/-- C7, witness: the scenario of the spec, seed amount 1000 at version 1
with delta 10, where the one row of the store ends at amount 1010 and
version 2. -/
theorem c7_success_updates_exactly_one_row_witness :
    (∃ (j : Nat) (r : Balance),
        ([⟨1, 1000, 1⟩] : Store)[j]? = some r ∧ r.id = 1 ∧ r.version = (1 : Int)
      ∧ ([⟨1, 1010, 2⟩] : Store)[j]? = some ⟨1, 1000 + 10, 1 + 1⟩
      ∧ ∀ m : Nat, m ≠ j → ([⟨1, 1010, 2⟩] : Store)[m]? = ([⟨1, 1000, 1⟩] : Store)[m]?)
    ∧ ∀ (g : Nat → Store → Store) (s u : Store) (res : Option GoErr),
        updateBalanceRetryStore g 1 10 s = (res, u) →
        (res = none ∨ res = some GoErr.successfulRetry) →
        ∃ sR sW, updateBalanceRMW sR sW 1 10 = (none, u) :=
  c7_success_updates_exactly_one_row [⟨1, 1000, 1⟩] [⟨1, 1000, 1⟩] 1 10 ⟨1, 1000, 1⟩
    [⟨1, 1010, 2⟩] (by decide) (by decide) (by decide) (by decide) (by decide) (by decide)
    (by decide)

/-- When the store-level retry loop ends in retry exhaustion, every one
of its conditional writes matched zero rows, so the final store is the
store as evolved by the interference alone: the invocation itself
mutated nothing. -/
theorem retryStoreGo_exhausted_no_mutation (g : Nat → Store → Store) (i : Nat)
    (delta : Int) :
    ∀ (fuel k : Nat) (s : Store) (le : Option GoErr) (t : Store),
      (le = none ∨ le = some GoErr.conflictRetryExhausted) →
      retryStoreGo g i delta fuel k s le = (some GoErr.conflictRetryExhausted, t) →
      t = interfOnlyGo g fuel k s := by
  intro fuel
  induction fuel with
  | zero =>
      intro k s le t hle h
      simp only [retryStoreGo, Prod.mk.injEq] at h
      rcases hle with h1 | h1 <;> subst h1
      · exact absurd h.1 (by decide)
      · exact h.2.symm
  | succ fuel ih =>
      intro k s le t hle h
      simp only [retryStoreGo] at h
      cases hf : findBalance (g (2 * k - 1) s) i with
      | none =>
          rw [hf] at h
          dsimp only at h
          simp only [Prod.mk.injEq] at h
          exact absurd h.1 (by decide)
      | some b =>
          rw [hf] at h
          dsimp only at h
          by_cases hz : (conditionalUpdate (g (2 * k) (g (2 * k - 1) s)) i b.version
              (wrap64 (b.amount + delta)) (wrap64 (b.version + 1))).2 = 0
          · rw [if_pos hz] at h
            rw [conditionalUpdate_noMatch _ _ _ _ _ hz] at h
            have := ih (k + 1) (g (2 * k) (g (2 * k - 1) s)) _ t (Or.inr rfl) h
            simpa [interfOnlyGo] using this
          · rw [if_neg hz] at h
            simp only [Prod.mk.injEq] at h
            rcases h with ⟨h1, _⟩
            by_cases hk : 1 < k
            · rw [if_pos hk] at h1; exact absurd h1 (by decide)
            · rw [if_neg hk] at h1; exact absurd h1 (by decide)

/-- C8.  An invocation that fails with Conflict (single-attempt variant)
or with retry exhaustion (retrying variant) leaves the store exactly as
it found it: the single-attempt cycle returns the write store untouched,
and the retrying loop returns the store produced by the concurrent
interference alone, with zero mutation from the losing invocation. -/
theorem c8_conflict_leaves_store_unchanged :
    (∀ (sR sW : Store) (i : Nat) (delta : Int) (t : Store),
        updateBalanceRMW sR sW i delta = (some GoErr.conflictSingle, t) → t = sW)
    ∧ ∀ (g : Nat → Store → Store) (i : Nat) (delta : Int) (s t : Store),
        updateBalanceRetryStore g i delta s = (some GoErr.conflictRetryExhausted, t) →
        t = interfOnly g s := by
  constructor
  · intro sR sW i delta t h
    unfold updateBalanceRMW at h
    cases hf : findBalance sR i with
    | none =>
        rw [hf] at h
        dsimp only at h
        simp only [Prod.mk.injEq] at h
        exact absurd h.1 (by decide)
    | some b =>
        rw [hf] at h
        dsimp only at h
        by_cases hz : (conditionalUpdate sW i b.version (wrap64 (b.amount + delta))
            (wrap64 (b.version + 1))).2 = 0
        · rw [if_pos hz] at h
          have ht := congrArg Prod.snd h
          rw [conditionalUpdate_noMatch _ _ _ _ _ hz] at ht
          exact ht.symm
        · rw [if_neg hz] at h
          simp only [Prod.mk.injEq] at h
          exact absurd h.1 (by decide)
  · intro g i delta s t h
    exact retryStoreGo_exhausted_no_mutation g i delta maxAttempts 1 s none t (Or.inl rfl) h

/-- C8, witness: a single-attempt conflict against a store whose version
moved on returns that store as is, and a retrying invocation starved by
a competing writer that bumps the version before every one of its writes
exhausts its retries leaving exactly the interference-evolved store. -/
theorem c8_conflict_leaves_store_unchanged_witness :
    ([⟨1, 1005, 2⟩] : Store) = [⟨1, 1005, 2⟩]
    ∧ ([⟨1, 1000, 6⟩] : Store) =
        interfOnly
          (fun n s => if n % 2 == 0
            then s.map (fun b => { b with version := b.version + 1 }) else s)
          [⟨1, 1000, 1⟩] :=
  ⟨c8_conflict_leaves_store_unchanged.1 [⟨1, 1000, 1⟩] [⟨1, 1005, 2⟩] 1 10
      [⟨1, 1005, 2⟩] (by decide),
   c8_conflict_leaves_store_unchanged.2
      (fun n s => if n % 2 == 0
        then s.map (fun b => { b with version := b.version + 1 }) else s)
      1 10 [⟨1, 1000, 1⟩] [⟨1, 1000, 6⟩] (by decide)⟩

/-- C9.  Attempt 2 of the retrying variant uses values from its own
fresh read, not the values observed by attempt 1.  A competing writer
commits amount plus dOther and version plus one between attempt 1's read
and write; attempt 1 therefore conflicts, and attempt 2 succeeds using
the re-fetched version v0 + 1 as its guard and the re-fetched amount
a0 + dOther as the base for its delta: the record ends at
a0 + dOther + delta with version v0 + 2, which is impossible if the
stale version or amount of attempt 1 were reused (a stale guard v0 can
never match again, and a stale base would store a0 + delta, losing the
competing update). -/
theorem c9_retry_uses_fresh_read (i : Nat) (a0 v0 dOther delta : Int)
    (h1 : -(2 ^ 63) ≤ a0 + dOther) (h2 : a0 + dOther < 2 ^ 63)
    (h3 : -(2 ^ 63) ≤ a0 + dOther + delta) (h4 : a0 + dOther + delta < 2 ^ 63)
    (h5 : -(2 ^ 63) ≤ v0 + 1) (h6 : v0 + 1 < 2 ^ 63)
    (h7 : -(2 ^ 63) ≤ v0 + 2) (h8 : v0 + 2 < 2 ^ 63) :
    updateBalanceRetryStore
      (fun n s => if n = 2
        then s.map (fun b => { b with amount := wrap64 (b.amount + dOther),
                                      version := wrap64 (b.version + 1) })
        else s)
      i delta [⟨i, a0, v0⟩]
    = (some GoErr.successfulRetry, [⟨i, a0 + dOther + delta, v0 + 2⟩]) := by
  have w1 : wrap64 (a0 + dOther) = a0 + dOther := wrap64_eq_self _ h1 h2
  have w2 : wrap64 (v0 + 1) = v0 + 1 := wrap64_eq_self _ h5 h6
  have w3 : wrap64 (a0 + dOther + delta) = a0 + dOther + delta := wrap64_eq_self _ h3 h4
  have w4 : wrap64 (v0 + 1 + 1) = v0 + 2 := by
    rw [show v0 + 1 + 1 = v0 + 2 by ring]
    exact wrap64_eq_self _ h7 h8
  have hne : ((v0 + 1 : Int) == v0) = false := by
    rw [beq_eq_false_iff_ne]; omega
  unfold updateBalanceRetryStore maxAttempts
  simp [retryStoreGo, findBalance, conditionalUpdate, condUpdateMatches,
    w1, w2, w3, w4, hne]

/-- C9, witness: the spec scenario with seed amount 1000 at version 1, a
competitor applying 5 and the invocation applying 10; the record ends at
1015 with version 3 and the invocation reports its conflicted-then-won
run. -/
theorem c9_retry_uses_fresh_read_witness :
    updateBalanceRetryStore
      (fun n s => if n = 2
        then s.map (fun b => { b with amount := wrap64 (b.amount + 5),
                                      version := wrap64 (b.version + 1) })
        else s)
      1 10 [⟨1, 1000, 1⟩]
    = (some GoErr.successfulRetry, [⟨1, 1000 + 5 + 10, 1 + 2⟩]) :=
  c9_retry_uses_fresh_read 1 1000 1 5 10 (by decide) (by decide) (by decide)
    (by decide) (by decide) (by decide) (by decide) (by decide)

/-- C10.  The new amount both variants store is Go's unchecked int64 sum
of the read amount and the delta: the stored value always lies in the
signed 64-bit range, is congruent to the mathematical sum modulo 2 to
the 64 (two's complement wrap-around), and at the boundary the code
neither detects nor rejects the overflow: adding 1 to the maximal int64
amount succeeds in both variants and stores the wrapped, negative
minimum with the version still incremented. -/
theorem c10_unchecked_int64_wraparound (a delta : Int) :
    (-(2 ^ 63) ≤ wrap64 (a + delta) ∧ wrap64 (a + delta) < 2 ^ 63)
    ∧ (wrap64 (a + delta) - (a + delta)) % 2 ^ 64 = 0
    ∧ updateBalanceRMW [⟨1, 2 ^ 63 - 1, 1⟩] [⟨1, 2 ^ 63 - 1, 1⟩] 1 1 =
        (none, [⟨1, -(2 ^ 63), 2⟩])
    ∧ updateBalanceRetryStore (fun _ s => s) 1 1 [⟨1, 2 ^ 63 - 1, 1⟩] =
        (none, [⟨1, -(2 ^ 63), 2⟩]) := by
  refine ⟨⟨?_, ?_⟩, ?_, by decide, by decide⟩
  · unfold wrap64; omega
  · unfold wrap64; omega
  · unfold wrap64; omega
